import Mathlib

/-!
Verification of the stage-sequencing orchestrator (main.py) of the
IRS990-Orchestrator repository, as a shallow embedding in Lean 4.

Filesystem and subprocess effects are modelled by an explicit environment
(`Env`) supplying the answers the operating system would give (does a
directory exist, does a script file exist, how does a launched process end,
does directory creation succeed), and by an explicit trace of observable
events (`Event`): process-launch attempts and directory creations.
All paths are modelled relative to the project root, so the
PROJECT_ROOT prefix of main.py is elided.
-/

namespace Orchestrator

/-! ## Case-name validation (main.py, validate_case_name) -/

/-- Character class `[a-zA-Z0-9_.-]` of the validation regex. -/
def isAllowedChar (c : Char) : Bool :=
  c.isLower || c.isUpper || c.isDigit || c == '_' || c == '.' || c == '-'

/-- Helper for `reMatchChars`: after the first character, the rest of the
string must be allowed characters, except that a single final newline is
accepted because the Python regex anchor accepts a position just before a
trailing newline. -/
def tailMatch : List Char → Bool
  | [] => true
  | [c] => c == '\n' || isAllowedChar c
  | c :: c2 :: rest => isAllowedChar c && tailMatch (c2 :: rest)

/-- Whether `re.match` with the anchored allow-list pattern of
validate_case_name succeeds on the character list: one or more allowed
characters, optionally followed by one final newline (Python semantics of
the end anchor in non-multiline mode). -/
def reMatchChars : List Char → Bool
  | [] => false
  | c :: rest => isAllowedChar c && tailMatch rest

/-- Whether the Python regex check of validate_case_name succeeds. -/
def reMatchAllowlist (s : String) : Bool :=
  reMatchChars s.data

/-- Whether the two-character sequence period-period occurs in the list. -/
def hasDotDotChars : List Char → Bool
  | '.' :: '.' :: _ => true
  | _ :: rest => hasDotDotChars rest
  | [] => false

/-- The Python substring test for path traversal in validate_case_name. -/
def hasDotDot (s : String) : Bool :=
  hasDotDotChars s.data

/-- validate_case_name of main.py: empty check, then the regex allow-list
check, then the literal substring check for the traversal sequence; a
failing check raises InvalidCaseNameError, modelled as an error value. -/
def validate_case_name (case_name : String) : Except String Unit :=
  if case_name = "" then
    Except.error "Case name cannot be empty."
  else if reMatchAllowlist case_name = false then
    Except.error ("Invalid case name: " ++ case_name ++
      ". Allowed characters are alphanumeric, underscore, hyphen, period. Path separators are not allowed.")
  else if hasDotDot case_name then
    Except.error ("Invalid case name: " ++ case_name ++ ". Path traversal is not allowed.")
  else
    Except.ok ()

/-- Whether validate_case_name succeeds on the given name. -/
def acceptsName (s : String) : Bool :=
  match validate_case_name s with
  | Except.ok _ => true
  | Except.error _ => false

/-- Modelled from the spec words of the claim, not from the source: a
non-anchored-quirk reading of matching the pattern of one or more
characters of the allow-list, covering the whole string. -/
def specAllowlistMatch (s : String) : Bool :=
  !s.data.isEmpty && s.data.all isAllowedChar

lemma tailMatch_eq_false_of_mem {c : Char} :
    ∀ l : List Char, c ∈ l → isAllowedChar c = false → ¬ c = '\n' → tailMatch l = false := by
  intro l
  induction l with
  | nil => intro h; cases h
  | cons a rest ih =>
    intro hmem hna hnl
    cases rest with
    | nil =>
      have ha : c = a := by simpa using hmem
      subst ha
      simp [tailMatch, hna, hnl]
    | cons b rest2 =>
      rcases List.mem_cons.mp hmem with ha | hb
      · subst ha
        simp [tailMatch, hna]
      · simp [tailMatch, ih hb hna hnl]

lemma reMatchChars_eq_false_of_mem {c : Char} :
    ∀ l : List Char, c ∈ l → isAllowedChar c = false → ¬ c = '\n' → reMatchChars l = false := by
  intro l hmem hna hnl
  cases l with
  | nil => cases hmem
  | cons a rest =>
    rcases List.mem_cons.mp hmem with ha | hb
    · subst ha
      simp [reMatchChars, hna]
    · simp [reMatchChars, tailMatch_eq_false_of_mem rest hb hna hnl]

lemma acceptsName_eq (s : String) :
    acceptsName s = (!(s == "") && reMatchAllowlist s && !(hasDotDot s)) := by
  unfold acceptsName validate_case_name
  by_cases h1 : s = ""
  · subst h1
    simp [reMatchAllowlist, reMatchChars]
  · rw [if_neg h1]
    by_cases h2 : reMatchAllowlist s = false
    · simp [h2]
    · have h2t : reMatchAllowlist s = true := by
        cases hb : reMatchAllowlist s
        · exact absurd hb h2
        · rfl
      rw [if_neg (by simp [h2t])]
      by_cases h3 : hasDotDot s
      · simp [h3, h2t]
      · simp [h3, h2t, h1]

/-- C1 counterexample: the string of two periods is non-empty and matches
the allow-list pattern of the claim, yet validate_case_name rejects it
(its third rule), so acceptance is not equivalent to being non-empty and
matching the pattern. -/
theorem C1_counterexample_dotdot :
    specAllowlistMatch ".." = true ∧ ".." ≠ "" ∧ acceptsName ".." = false := by
  refine ⟨by decide, by decide, by decide⟩

/-- C1 (amended): CaseNameValidator rejects every string containing a
forward slash, a backslash, or the period-period substring; and it accepts
a string exactly when the string is non-empty, passes the allow-list regex
as the code evaluates it (the Python end anchor also accepts one trailing
newline), and does not contain the period-period substring. -/
theorem C1_validator_characterization (s : String) :
    acceptsName s = (!(s == "") && reMatchAllowlist s && !(hasDotDot s)) ∧
    (('/' ∈ s.data ∨ '\\' ∈ s.data ∨ hasDotDot s = true) → acceptsName s = false) := by
  refine ⟨acceptsName_eq s, ?_⟩
  intro h
  rcases h with h | h | h
  · have hre : reMatchAllowlist s = false :=
      reMatchChars_eq_false_of_mem s.data h (by decide) (by decide)
    rw [acceptsName_eq s, hre]
    simp
  · have hre : reMatchAllowlist s = false :=
      reMatchChars_eq_false_of_mem s.data h (by decide) (by decide)
    rw [acceptsName_eq s, hre]
    simp
  · rw [acceptsName_eq s, h]
    simp

/-- Witness for C1: the rejection half of the characterization applied at
concrete inputs containing a slash and containing the traversal substring. -/
theorem C1_validator_characterization_witness :
    acceptsName "a/b" = false ∧ acceptsName "a..b" = false := by
  constructor
  · exact (C1_validator_characterization "a/b").2 (Or.inl (by decide))
  · exact (C1_validator_characterization "a..b").2 (Or.inr (Or.inr (by decide)))

/-! ## Filesystem and subprocess environment -/

/-- How a launched child process ends, as decided by the environment:
normal termination with an exit code, expiry of the timeout, or a failure
to launch at all (missing interpreter, permission error). -/
inductive ProcOutcome where
  | exits (code : Int)
  | timedOut
  | launchFailure (msg : String)

/-- Observable side effects of the orchestrator: an attempt to launch one
child process (identified by the script path being executed), and one
directory creation. -/
inductive Event where
  | launch (script : String)
  | mkdirs (path : String)
deriving DecidableEq, Repr

/-- The answers the operating system gives during one run: whether a path
is an existing directory, whether a path is an existing file, how a
launched process ends (keyed by the script path), and whether the
directory creations of the setup stage succeed. -/
structure Env where
  isdir : String → Bool
  isfile : String → Bool
  proc : String → ProcOutcome
  mkdirOk : Bool

/-- os.path.join for a relative second component. -/
def joinPath (a b : String) : String := a ++ "/" ++ b

/-- investigations directory, relative to the project root. -/
def INVESTIGATIONS_DIR : String := "investigations"

/-- scripts directory, relative to the project root. -/
def SCRIPTS_DIR : String := "scripts"

/-- The standard sub-directory list created by stage_0_setup_investigation. -/
def standard_subdirs : List String :=
  ["00_source_documents/irs_990s/pdfs", "00_source_documents/irs_990s/xmls",
   "00_source_documents/corporate_filings", "00_source_documents/property_records_raw",
   "00_source_documents/legal_documents", "00_source_documents/campaign_finance",
   "00_source_documents/lobbying_records", "00_source_documents/media_clippings_and_web_archives",
   "00_source_documents/other_public_records",
   "01_datashare_outputs/extracted_text", "01_datashare_outputs/ner_results",
   "02_parsed_and_structured_data/irs_990_parsed", "02_parsed_and_structured_data/corporate_parsed",
   "02_parsed_and_structured_data/property_parsed", "02_parsed_and_structured_data/campaign_finance_parsed",
   "02_parsed_and_structured_data/lobbying_parsed",
   "03_analysis_and_reports",
   "04_findings_and_narrative"]

/-- Classified failure of one script invocation (the distinct raise sites
of ScriptExecutionError in run_script of main.py). -/
inductive ScriptError where
  | notFound (path : String)
  | nonZeroExit (path : String) (code : Int)
  | timedOutErr (path : String)
  | launchError (msg : String)
deriving DecidableEq, Repr

/-- run_script of main.py: if the target file does not exist, raise the
not-found error with no launch attempted; otherwise launch the process
(recorded as a launch event, also when the launch itself fails) and
classify its termination. The case name, timeout and extra arguments are
passed through to the child and do not affect the classification. -/
def run_script (env : Env) (script_path_relative : String) (case_name : String)
    (script_timeout : Nat) (args : List String) : List Event × Except ScriptError Unit :=
  if env.isfile (joinPath SCRIPTS_DIR script_path_relative) = false then
    ([], Except.error (ScriptError.notFound (joinPath SCRIPTS_DIR script_path_relative)))
  else
    match env.proc (joinPath SCRIPTS_DIR script_path_relative) with
    | ProcOutcome.exits code =>
      if code = 0 then
        ([Event.launch (joinPath SCRIPTS_DIR script_path_relative)], Except.ok ())
      else
        ([Event.launch (joinPath SCRIPTS_DIR script_path_relative)],
         Except.error (ScriptError.nonZeroExit (joinPath SCRIPTS_DIR script_path_relative) code))
    | ProcOutcome.timedOut =>
        ([Event.launch (joinPath SCRIPTS_DIR script_path_relative)],
         Except.error (ScriptError.timedOutErr (joinPath SCRIPTS_DIR script_path_relative)))
    | ProcOutcome.launchFailure m =>
        ([Event.launch (joinPath SCRIPTS_DIR script_path_relative)],
         Except.error (ScriptError.launchError m))

/-- validate_investigation_exists of main.py: the name must validate and
the investigation directory must exist. -/
def validate_investigation_exists (env : Env) (case_name : String) : Bool :=
  match validate_case_name case_name with
  | Except.error _ => false
  | Except.ok _ => env.isdir (joinPath INVESTIGATIONS_DIR case_name)

/-! ## Stage functions -/

/-- Errors raised by the stage functions of main.py: SetupError from the
setup stage and StageError from the others. -/
inductive OrchError where
  | setupError (msg : String)
  | stageError (msg : String)
deriving DecidableEq, Repr

/-- One resolved script invocation: a script path relative to the scripts
directory plus its extra arguments. -/
structure Invocation where
  script : String
  args : List String

/-- Whether one run_script call succeeded. -/
def scriptOk : Except ScriptError Unit → Bool
  | Except.ok _ => true
  | Except.error _ => false

/-- The per-stage execution loop shared by the stage functions of main.py:
run every resolved invocation in order, catching each script failure so
siblings still run, and report success exactly when all succeeded. -/
def execInvocations (env : Env) (case_name : String) (script_timeout : Nat) :
    List Invocation → List Event × Bool
  | [] => ([], true)
  | inv :: rest =>
    ((run_script env inv.script case_name script_timeout inv.args).1 ++
       (execInvocations env case_name script_timeout rest).1,
     scriptOk (run_script env inv.script case_name script_timeout inv.args).2 &&
       (execInvocations env case_name script_timeout rest).2)

/-- stage_0_setup_investigation of main.py: re-validate the case name
(raising SetupError on failure), then create the case root directory and
the standard sub-directories; an operating-system failure there raises
SetupError. -/
def stage_0_setup_investigation (env : Env) (case_name : String)
    (script_timeout : Nat) : List Event × Except OrchError Bool :=
  match validate_case_name case_name with
  | Except.error m => ([], Except.error (OrchError.setupError m))
  | Except.ok _ =>
    if env.mkdirOk then
      (Event.mkdirs (joinPath INVESTIGATIONS_DIR case_name) ::
         standard_subdirs.map
           (fun d => Event.mkdirs (joinPath (joinPath INVESTIGATIONS_DIR case_name) d)),
       Except.ok true)
    else
      ([], Except.error (OrchError.setupError
        ("Failed to create directories for case " ++ case_name)))

/-- stage_1_acquire_source_documents of main.py. -/
def stage_1_acquire_source_documents (env : Env) (case_name : String)
    (source_type : Option String) (script_timeout : Nat) :
    List Event × Except OrchError Bool :=
  if validate_investigation_exists env case_name = false then
    ([], Except.error (OrchError.stageError
      ("Cannot run acquire stage: Investigation directory for " ++ case_name ++
       " not found or invalid.")))
  else
    let scripts_to_run : List Invocation :=
      if source_type = some "irs_990s" ∨ source_type = some "all" ∨ source_type = none then
        [⟨"scraping/fetch_irs_990_forms.py", []⟩]
      else []
    if scripts_to_run.isEmpty then ([], Except.ok true)
    else
      ((execInvocations env case_name script_timeout scripts_to_run).1,
       Except.ok (execInvocations env case_name script_timeout scripts_to_run).2)

/-- stage_2_datashare_processing of main.py. -/
def stage_2_datashare_processing (env : Env) (case_name : String)
    (action : Option String) (script_timeout : Nat) :
    List Event × Except OrchError Bool :=
  if validate_investigation_exists env case_name = false then
    ([], Except.error (OrchError.stageError
      ("Cannot run datashare stage: Investigation directory for " ++ case_name ++
       " not found or invalid.")))
  else
    let actions_to_perform : List Invocation :=
      if action = some "create_project" ∨ action = some "all" ∨ action = none then
        [⟨"datashare_interactions/create_datashare_project.py", []⟩]
      else []
    if actions_to_perform.isEmpty then ([], Except.ok true)
    else
      ((execInvocations env case_name script_timeout actions_to_perform).1,
       Except.ok (execInvocations env case_name script_timeout actions_to_perform).2)

/-- stage_3_parse_and_structure_data of main.py: the type-specific parse
scripts run first; then, whenever the selector is the all token or unset,
the entity-resolution script is run as well, regardless of how the
type-specific scripts ended. -/
def stage_3_parse_and_structure_data (env : Env) (case_name : String)
    (document_type : Option String) (script_timeout : Nat) :
    List Event × Except OrchError Bool :=
  if validate_investigation_exists env case_name = false then
    ([], Except.error (OrchError.stageError
      ("Cannot run parse stage: Investigation directory for " ++ case_name ++
       " not found or invalid.")))
  else
    let scripts_to_run : List Invocation :=
      if document_type = some "irs_990s" ∨ document_type = some "all" ∨ document_type = none then
        [⟨"parsers/parse_irs_990xml.py", []⟩]
      else []
    if document_type = some "all" ∨ document_type = none then
      ((execInvocations env case_name script_timeout scripts_to_run).1 ++
         (run_script env "analysis/entity_resolution.py" case_name script_timeout []).1,
       Except.ok ((execInvocations env case_name script_timeout scripts_to_run).2 &&
         scriptOk (run_script env "analysis/entity_resolution.py" case_name script_timeout []).2))
    else
      ((execInvocations env case_name script_timeout scripts_to_run).1,
       Except.ok (execInvocations env case_name script_timeout scripts_to_run).2)

/-- stage_4_analysis_and_reporting of main.py. -/
def stage_4_analysis_and_reporting (env : Env) (case_name : String)
    (report_type : Option String) (script_timeout : Nat) :
    List Event × Except OrchError Bool :=
  if validate_investigation_exists env case_name = false then
    ([], Except.error (OrchError.stageError
      ("Cannot run analyze stage: Investigation directory for " ++ case_name ++
       " not found or invalid.")))
  else
    let scripts_to_run : List Invocation :=
      if report_type = some "connections" ∨ report_type = some "all" ∨ report_type = none then
        [⟨"analysis/generate_connections_report.py", []⟩]
      else []
    ((execInvocations env case_name script_timeout scripts_to_run).1,
     Except.ok (execInvocations env case_name script_timeout scripts_to_run).2)

/-- stage_5_package_for_review of main.py: only the directory check; the
packaging work itself is a placeholder. -/
def stage_5_package_for_review (env : Env) (case_name : String)
    (script_timeout : Nat) : List Event × Except OrchError Bool :=
  if validate_investigation_exists env case_name = false then
    ([], Except.error (OrchError.stageError
      ("Cannot run package stage: Investigation directory for " ++ case_name ++
       " not found or invalid.")))
  else
    ([], Except.ok true)

/-! ## Workflow controller (main of main.py) -/

/-- The six stage names of the workflow. -/
inductive StageName where
  | setup | acquire | datashare | parse | analyze | package
deriving DecidableEq, Repr

/-- One command-line stage token: a stage name or the all shorthand. -/
inductive StageTok where
  | stage (s : StageName)
  | all
deriving DecidableEq, Repr

/-- The stage name a token denotes, none for the all shorthand. -/
def StageTok.toName : StageTok → Option StageName
  | StageTok.stage s => some s
  | StageTok.all => none

/-- The parsed command line: the positional case name, the repeated stage
flags in the order given, the global script timeout, and the per-stage
sub-selectors. -/
structure Args where
  case_name : String
  stages : List StageTok
  script_timeout : Nat
  acquire_type : Option String
  datashare_action : Option String
  parse_type : Option String
  report_type : Option String

/-- The canonical stage order used when all stages are requested. -/
def canonicalStages : List StageName :=
  [StageName.setup, StageName.acquire, StageName.datashare,
   StageName.parse, StageName.analyze, StageName.package]

/-- How one loop iteration of main ends for its stage: completed
successfully, failed (a stage function returned false or raised), or
skipped because of an earlier failure. -/
inductive Disp where
  | succeeded | failed | skipped
deriving DecidableEq, Repr

/-- What one loop iteration of main recorded: the stage name, its
disposition, and the events its execution produced (none when skipped). -/
structure StageRecord where
  name : StageName
  disp : Disp
  events : List Event
deriving DecidableEq, Repr

/-- The dispatch chain of main: which stage function runs for which stage
name, with the matching sub-selector from the command line. -/
def dispatchStage (env : Env) (args : Args) : StageName → List Event × Except OrchError Bool
  | StageName.setup =>
      stage_0_setup_investigation env args.case_name args.script_timeout
  | StageName.acquire =>
      stage_1_acquire_source_documents env args.case_name args.acquire_type args.script_timeout
  | StageName.datashare =>
      stage_2_datashare_processing env args.case_name args.datashare_action args.script_timeout
  | StageName.parse =>
      stage_3_parse_and_structure_data env args.case_name args.parse_type args.script_timeout
  | StageName.analyze =>
      stage_4_analysis_and_reporting env args.case_name args.report_type args.script_timeout
  | StageName.package =>
      stage_5_package_for_review env args.case_name args.script_timeout

/-- One executed (not skipped) loop iteration of main: a stage function
returning true completes the stage; returning false raises StageError,
which the surrounding handler records as a stage failure, as it does a
stage function that raised. -/
def execStage (env : Env) (args : Args) (s : StageName) : List Event × Disp :=
  match dispatchStage env args s with
  | (tr, Except.ok true) => (tr, Disp.succeeded)
  | (tr, Except.ok false) => (tr, Disp.failed)
  | (tr, Except.error _) => (tr, Disp.failed)

/-- The stage loop of main over the ordered stage list, threading the
overall success flag: a stage is skipped when the flag is already false
and the stage is not setup; otherwise the stage executes and a failure
clears the flag. Returns the per-stage records and the final flag. -/
def runStages (env : Env) (args : Args) : Bool → List StageName → List StageRecord × Bool
  | overall, [] => ([], overall)
  | overall, s :: rest =>
    if overall = false ∧ s ∉ [StageName.setup] then
      ((⟨s, Disp.skipped, []⟩ : StageRecord) :: (runStages env args overall rest).1,
       (runStages env args overall rest).2)
    else
      ((⟨s, (execStage env args s).2, (execStage env args s).1⟩ : StageRecord) ::
         (runStages env args (overall && ((execStage env args s).2 == Disp.succeeded)) rest).1,
       (runStages env args (overall && ((execStage env args s).2 == Disp.succeeded)) rest).2)

/-- The stage-list expansion of main: the all token anywhere in the
request yields the canonical order; otherwise the stages run exactly as
listed, in the order listed. -/
def orderedStages (args : Args) : List StageName :=
  if StageTok.all ∈ args.stages then canonicalStages
  else args.stages.filterMap StageTok.toName

/-- main of main.py after argument parsing: validate the case name,
exiting with code 1 before any stage on failure; otherwise run the
expanded stage list and exit 0 exactly when every executed stage
succeeded. Returns the stage records and the process exit code. -/
def mainRun (env : Env) (args : Args) : List StageRecord × Nat :=
  if acceptsName args.case_name = false then ([], 1)
  else
    ((runStages env args true (orderedStages args)).1,
     if (runStages env args true (orderedStages args)).2 then 0 else 1)

/-! ## Structural lemmas about the stage loop -/

lemma execStage_ne_skipped (env : Env) (args : Args) (s : StageName) :
    (execStage env args s).2 ≠ Disp.skipped := by
  unfold execStage
  rcases h : dispatchStage env args s with ⟨tr, r⟩
  rcases r with e | b
  · simp
  · cases b <;> simp

lemma runStages_names (env : Env) (args : Args) :
    ∀ (l : List StageName) (overall : Bool),
      ((runStages env args overall l).1).map (fun r => r.name) = l := by
  intro l
  induction l with
  | nil => intro overall; rfl
  | cons s rest ih =>
    intro overall
    by_cases hc : overall = false ∧ s ∉ [StageName.setup]
    · simp only [runStages, if_pos hc, List.map_cons, ih]
    · simp only [runStages, if_neg hc, List.map_cons, ih]

lemma runStages_skipped_of_mem (env : Env) (args : Args) :
    ∀ (l : List StageName) (overall : Bool) (r : StageRecord),
      r ∈ (runStages env args overall l).1 → r.disp = Disp.skipped →
      r.events = [] ∧ r.name ∉ [StageName.setup] := by
  intro l
  induction l with
  | nil => intro overall r hmem; cases hmem
  | cons s rest ih =>
    intro overall r hmem hskip
    by_cases hc : overall = false ∧ s ∉ [StageName.setup]
    · rw [runStages, if_pos hc] at hmem
      rcases List.mem_cons.mp hmem with hr | hr
      · subst hr
        exact ⟨rfl, hc.2⟩
      · exact ih overall r hr hskip
    · rw [runStages, if_neg hc] at hmem
      rcases List.mem_cons.mp hmem with hr | hr
      · exfalso
        apply execStage_ne_skipped env args s
        rw [← hskip, hr]
      · exact ih _ r hr hskip

lemma runStages_skip_iff (env : Env) (args : Args) :
    ∀ (l : List StageName) (overall : Bool) (pre : List StageRecord)
      (r : StageRecord) (post : List StageRecord),
      (runStages env args overall l).1 = pre ++ r :: post →
      (r.disp = Disp.skipped ↔
        (r.name ∉ [StageName.setup] ∧
          (overall = false ∨ ∃ r0 ∈ pre, r0.disp = Disp.failed))) := by
  intro l
  induction l with
  | nil =>
    intro overall pre r post h
    exfalso
    have : ([] : List StageRecord) = pre ++ r :: post := h
    cases pre <;> simp at this
  | cons s rest ih =>
    intro overall pre r post h
    by_cases hc : overall = false ∧ s ∉ [StageName.setup]
    · rw [runStages, if_pos hc] at h
      cases pre with
      | nil =>
        simp only [List.nil_append, List.cons.injEq] at h
        constructor
        · intro _
          refine ⟨?_, Or.inl hc.1⟩
          rw [← h.1]
          exact hc.2
        · intro _
          rw [← h.1]
      | cons p0 pre2 =>
        simp only [List.cons_append, List.cons.injEq] at h
        have htail := ih overall pre2 r post h.2
        rw [htail, hc.1]
        simp
    · rw [runStages, if_neg hc] at h
      cases pre with
      | nil =>
        simp only [List.nil_append, List.cons.injEq] at h
        have hr : r.disp = (execStage env args s).2 := by rw [← h.1]
        have hname : r.name = s := by rw [← h.1]
        constructor
        · intro hskip
          exact absurd (hr ▸ hskip).symm.symm
            (by rw [← hr]; rw [hskip] at hr; exact fun hh => execStage_ne_skipped env args s hr.symm)
        · intro hrhs
          exfalso
          apply hc
          rcases hrhs with ⟨hns, hor⟩
          rcases hor with hov | ⟨r0, hr0, _⟩
          · exact ⟨hov, hname ▸ hns⟩
          · cases hr0
      | cons p0 pre2 =>
        simp only [List.cons_append, List.cons.injEq] at h
        have htail := ih (overall && ((execStage env args s).2 == Disp.succeeded)) pre2 r post h.2
        rw [htail]
        have hp0 : p0.disp = (execStage env args s).2 := by rw [← h.1]
        constructor
        · rintro ⟨hns, hor⟩
          refine ⟨hns, ?_⟩
          rcases hor with hov | ⟨r0, hr0, hf⟩
          · rcases Bool.and_eq_false_iff.mp hov with hov | hd
            · exact Or.inl hov
            · refine Or.inr ⟨p0, List.mem_cons_self _ _, ?_⟩
              rw [hp0]
              cases hx : (execStage env args s).2
              · rw [hx] at hd; simp at hd
              · rfl
              · exact absurd hx (execStage_ne_skipped env args s)
          · exact Or.inr ⟨r0, List.mem_cons_of_mem _ hr0, hf⟩
        · rintro ⟨hns, hor⟩
          refine ⟨hns, ?_⟩
          rcases hor with hov | ⟨r0, hr0, hf⟩
          · exact Or.inl (by rw [hov]; simp)
          · rcases List.mem_cons.mp hr0 with hr0 | hr0
            · subst hr0
              refine Or.inl ?_
              rw [Bool.and_eq_false_iff]
              right
              rw [← hp0, hf]
              rfl
            · exact Or.inr ⟨r0, hr0, hf⟩

lemma runStages_not_skipped (env : Env) (args : Args) :
    ∀ (l : List StageName) (overall : Bool) (pre : List StageRecord)
      (r : StageRecord) (post : List StageRecord),
      (runStages env args overall l).1 = pre ++ r :: post →
      ¬ r.disp = Disp.skipped →
      r.events = (execStage env args r.name).1 ∧ r.disp = (execStage env args r.name).2 := by
  intro l
  induction l with
  | nil =>
    intro overall pre r post h
    exfalso
    have : ([] : List StageRecord) = pre ++ r :: post := h
    cases pre <;> simp at this
  | cons s rest ih =>
    intro overall pre r post h hns
    by_cases hc : overall = false ∧ s ∉ [StageName.setup]
    · rw [runStages, if_pos hc] at h
      cases pre with
      | nil =>
        simp only [List.nil_append, List.cons.injEq] at h
        exfalso
        apply hns
        rw [← h.1]
      | cons p0 pre2 =>
        simp only [List.cons_append, List.cons.injEq] at h
        exact ih overall pre2 r post h.2 hns
    · rw [runStages, if_neg hc] at h
      cases pre with
      | nil =>
        simp only [List.nil_append, List.cons.injEq] at h
        rw [← h.1]
        exact ⟨rfl, rfl⟩
      | cons p0 pre2 =>
        simp only [List.cons_append, List.cons.injEq] at h
        exact ih _ pre2 r post h.2 hns

lemma mainRun_records (env : Env) (args : Args) (h : acceptsName args.case_name = true) :
    (mainRun env args).1 = (runStages env args true (orderedStages args)).1 := by
  unfold mainRun
  rw [if_neg (by rw [h]; simp)]

/-! ## Concrete run fixtures -/

/-- An environment where every path exists, every script exits 0 and
directory creation succeeds. -/
def envAllOk : Env :=
  { isdir := fun _ => true, isfile := fun _ => true,
    proc := fun _ => ProcOutcome.exits 0, mkdirOk := true }

/-- An environment identical to `envAllOk` except that directory creation
fails, so the setup stage fails. -/
def envSetupFails : Env :=
  { isdir := fun _ => true, isfile := fun _ => true,
    proc := fun _ => ProcOutcome.exits 0, mkdirOk := false }

/-- An environment where the acquisition fetch script exits with code 1
and everything else succeeds. -/
def envAcquireFails : Env :=
  { isdir := fun _ => true, isfile := fun _ => true,
    proc := fun p =>
      if p = "scripts/scraping/fetch_irs_990_forms.py" then ProcOutcome.exits 1
      else ProcOutcome.exits 0,
    mkdirOk := true }

/-- An environment where no investigation directory exists. -/
def envNoInvestigationDir : Env :=
  { isdir := fun _ => false, isfile := fun _ => true,
    proc := fun _ => ProcOutcome.exits 0, mkdirOk := true }

/-- An environment where no script file exists. -/
def envNoScriptFiles : Env :=
  { isdir := fun _ => true, isfile := fun _ => false,
    proc := fun _ => ProcOutcome.exits 0, mkdirOk := true }

/-- A command line for the valid case name case1, the given stage tokens,
a timeout of 60 seconds and every sub-selector left unset. -/
def mkArgs (stages : List StageTok) : Args :=
  { case_name := "case1", stages := stages, script_timeout := 60,
    acquire_type := none, datashare_action := none,
    parse_type := none, report_type := none }

/-! ## Claim theorems about the workflow controller -/

/-- C2 counterexample: with requested stages setup then acquire and an
environment whose directory creation fails, setup fails and acquire is
recorded as skipped with no events; the acquire stage function is not
invoked, contrary to the claim that it would still be attempted. -/
theorem C2_counterexample_setup_failure :
    mainRun envSetupFails (mkArgs [StageTok.stage StageName.setup, StageTok.stage StageName.acquire]) =
      ([⟨StageName.setup, Disp.failed, []⟩, ⟨StageName.acquire, Disp.skipped, []⟩], 1) := by
  decide

/-- C2 (amended): with requested stages setup then acquire, if the setup
stage fails then acquire is skipped, not attempted: every non-setup stage
checks whether a prior failure occurred, and a setup failure counts as
one. (The exception in the loop is the converse: a setup stage requested
after a prior failure is still attempted.) -/
theorem C2_setup_failure_skips_acquire (env : Env) (args : Args)
    (h1 : acceptsName args.case_name = true)
    (h2 : args.stages = [StageTok.stage StageName.setup, StageTok.stage StageName.acquire])
    (h3 : (execStage env args StageName.setup).2 = Disp.failed) :
    (mainRun env args).1 =
      [⟨StageName.setup, Disp.failed, (execStage env args StageName.setup).1⟩,
       ⟨StageName.acquire, Disp.skipped, []⟩] := by
  rw [mainRun_records env args h1]
  have hord : orderedStages args = [StageName.setup, StageName.acquire] := by
    unfold orderedStages
    rw [h2]
    rfl
  rw [hord]
  rw [runStages, if_neg (by simp)]
  rw [h3]
  rw [runStages, if_pos (by simp)]
  rw [runStages]

/-- Witness for C2 (amended): the amended statement applied to the
concrete failing-setup environment. -/
theorem C2_setup_failure_skips_acquire_witness :
    (mainRun envSetupFails (mkArgs [StageTok.stage StageName.setup, StageTok.stage StageName.acquire])).1 =
      [⟨StageName.setup, Disp.failed, []⟩, ⟨StageName.acquire, Disp.skipped, []⟩] := by
  have h := C2_setup_failure_skips_acquire envSetupFails
    (mkArgs [StageTok.stage StageName.setup, StageTok.stage StageName.acquire])
    (by decide) rfl (by decide)
  exact h.trans (by decide)

/-- C3: in every run, a recorded stage is skipped exactly when it is not
the setup stage and some earlier recorded stage failed (so setup requested
after a failure is still attempted), and a skipped stage records no events
because its stage function is never invoked; concretely, with requested
stages acquire then parse and a failing acquisition script, acquire is
recorded as failed, parse as skipped, and the exit code is 1. -/
theorem C3_failure_propagation (env : Env) (args : Args) :
    (∀ (pre : List StageRecord) (r : StageRecord) (post : List StageRecord),
      (mainRun env args).1 = pre ++ r :: post →
      ((r.disp = Disp.skipped ↔
          (¬ r.name = StageName.setup ∧ ∃ r0 ∈ pre, r0.disp = Disp.failed)) ∧
       (r.disp = Disp.skipped → r.events = []))) ∧
    (mainRun envAcquireFails (mkArgs [StageTok.stage StageName.acquire, StageTok.stage StageName.parse])).1.map
        (fun r => (r.name, r.disp)) =
      [(StageName.acquire, Disp.failed), (StageName.parse, Disp.skipped)] ∧
    (mainRun envAcquireFails (mkArgs [StageTok.stage StageName.acquire, StageTok.stage StageName.parse])).2 = 1 := by
  refine ⟨?_, by decide, by decide⟩
  intro pre r post h
  by_cases hacc : acceptsName args.case_name = true
  · rw [mainRun_records env args hacc] at h
    have hiff := runStages_skip_iff env args (orderedStages args) true pre r post h
    have hmem : r ∈ (runStages env args true (orderedStages args)).1 := by
      rw [h]
      exact List.mem_append.mpr (Or.inr (List.mem_cons_self _ _))
    constructor
    · rw [hiff]
      simp
    · intro hskip
      exact (runStages_skipped_of_mem env args (orderedStages args) true r hmem hskip).1
  · exfalso
    have hacc2 : acceptsName args.case_name = false := by
      cases hb : acceptsName args.case_name
      · rfl
      · exact absurd hb hacc
    have : (mainRun env args).1 = [] := by
      unfold mainRun
      rw [if_pos hacc2]
    rw [this] at h
    cases pre <;> simp at h

/-- Witness for C3: the skip-characterization applied to the concrete
acquire-then-parse run whose acquire stage failed. -/
theorem C3_failure_propagation_witness :
    (⟨StageName.parse, Disp.skipped, ([] : List Event)⟩ : StageRecord).disp = Disp.skipped := by
  have h := ((C3_failure_propagation envAcquireFails
      (mkArgs [StageTok.stage StageName.acquire, StageTok.stage StageName.parse])).1
    [⟨StageName.acquire, Disp.failed, [Event.launch "scripts/scraping/fetch_irs_990_forms.py"]⟩]
    ⟨StageName.parse, Disp.skipped, []⟩ [] (by decide)).1
  exact h.mpr (by decide)

/-- C4: with a valid case name, if the all token is among the requested
stages the recorded stage sequence is exactly the canonical order
setup, acquire, datashare, parse, analyze, package, regardless of what
else was listed; otherwise it is exactly the stages the caller listed, in
the order listed. -/
theorem C4_stage_ordering (env : Env) (args : Args)
    (h : acceptsName args.case_name = true) :
    (StageTok.all ∈ args.stages →
      (mainRun env args).1.map (fun r => r.name) = canonicalStages) ∧
    (StageTok.all ∉ args.stages →
      (mainRun env args).1.map (fun r => r.name) = args.stages.filterMap StageTok.toName) := by
  constructor
  · intro hmem
    rw [mainRun_records env args h, runStages_names]
    unfold orderedStages
    rw [if_pos hmem]
  · intro hmem
    rw [mainRun_records env args h, runStages_names]
    unfold orderedStages
    rw [if_neg hmem]

/-- Witness for C4: requesting parse then acquire records parse before
acquire, and a request containing the all token (here listed after the
package token) records the canonical order. -/
theorem C4_stage_ordering_witness :
    (mainRun envAllOk (mkArgs [StageTok.stage StageName.parse, StageTok.stage StageName.acquire])).1.map
        (fun r => r.name) = [StageName.parse, StageName.acquire] ∧
    (mainRun envAllOk (mkArgs [StageTok.stage StageName.package, StageTok.all])).1.map
        (fun r => r.name) = canonicalStages := by
  constructor
  · have h := (C4_stage_ordering envAllOk
      (mkArgs [StageTok.stage StageName.parse, StageTok.stage StageName.acquire]) (by decide)).2
      (by decide)
    exact h.trans (by decide)
  · exact (C4_stage_ordering envAllOk
      (mkArgs [StageTok.stage StageName.package, StageTok.all]) (by decide)).1 (by decide)

/-- C9: when the all token is absent, the requested stage list is run
verbatim including duplicates: the recorded stage sequence is exactly the
listed one, and every record not skipped by the failure policy carries
exactly the events and disposition of one invocation of that stage
function. -/
theorem C9_duplicates_verbatim (env : Env) (args : Args)
    (h1 : acceptsName args.case_name = true)
    (h2 : StageTok.all ∉ args.stages) :
    ((mainRun env args).1.map (fun r => r.name) = args.stages.filterMap StageTok.toName) ∧
    (∀ (pre : List StageRecord) (r : StageRecord) (post : List StageRecord),
      (mainRun env args).1 = pre ++ r :: post →
      ¬ r.disp = Disp.skipped →
      r.events = (execStage env args r.name).1 ∧ r.disp = (execStage env args r.name).2) := by
  constructor
  · rw [mainRun_records env args h1, runStages_names]
    unfold orderedStages
    rw [if_neg h2]
  · intro pre r post h hns
    rw [mainRun_records env args h1] at h
    exact runStages_not_skipped env args (orderedStages args) true pre r post h hns

/-- Witness for C9: requesting acquire twice runs the acquisition stage
function twice, recording two acquire stages and launching the fetch
script once per occurrence. -/
theorem C9_duplicates_verbatim_witness :
    (mainRun envAllOk (mkArgs [StageTok.stage StageName.acquire, StageTok.stage StageName.acquire])).1.map
        (fun r => r.name) = [StageName.acquire, StageName.acquire] ∧
    (mainRun envAllOk (mkArgs [StageTok.stage StageName.acquire, StageTok.stage StageName.acquire])).1.map
        (fun r => r.events) =
      [[Event.launch "scripts/scraping/fetch_irs_990_forms.py"],
       [Event.launch "scripts/scraping/fetch_irs_990_forms.py"]] := by
  constructor
  · have h := (C9_duplicates_verbatim envAllOk
      (mkArgs [StageTok.stage StageName.acquire, StageTok.stage StageName.acquire])
      (by decide) (by decide)).1
    exact h.trans (by decide)
  · decide

/-- C10: whenever the case name fails validation, the run exits with code
1 recording no stage at all, whatever stages were requested: no stage
function is invoked, so no child process is launched and no directory is
created. -/
theorem C10_invalid_name_halts (env : Env) (args : Args)
    (h : acceptsName args.case_name = false) :
    mainRun env args = ([], 1) ∧
    (mainRun env args).1.flatMap (fun r => r.events) = [] := by
  have hm : mainRun env args = ([], 1) := by
    unfold mainRun
    rw [if_pos h]
  exact ⟨hm, by rw [hm]; rfl⟩

/-- Witness for C10: a case name containing a path separator halts the
run with exit code 1 and no records, even though setup was not among the
requested stages. -/
theorem C10_invalid_name_halts_witness :
    mainRun envAllOk
      { case_name := "bad/name", stages := [StageTok.stage StageName.acquire],
        script_timeout := 60, acquire_type := none, datashare_action := none,
        parse_type := none, report_type := none } = ([], 1) := by
  exact (C10_invalid_name_halts envAllOk _ (by decide)).1

/-! ## Claim theorems about stage resolution and execution -/

lemma execInvocations_singleton (env : Env) (c : String) (tmo : Nat) (inv : Invocation) :
    execInvocations env c tmo [inv] =
      ((run_script env inv.script c tmo inv.args).1,
       scriptOk (run_script env inv.script c tmo inv.args).2) := by
  simp [execInvocations]

/-- C5: in the parse stage (investigation directory present), when the
sub-selector is the all token or unset, the entity-resolution script is
run after the type-specific parse script, whatever the outcome of the
latter, and the stage succeeds exactly when both did; when the
sub-selector names the IRS type specifically, the entity-resolution
script is not run and the stage is exactly the type-specific parse run. -/
theorem C5_parse_entity_resolution (env : Env) (c : String) (tmo : Nat)
    (h : validate_investigation_exists env c = true) :
    (∀ dt : Option String, dt = some "all" ∨ dt = none →
      stage_3_parse_and_structure_data env c dt tmo =
        ((run_script env "parsers/parse_irs_990xml.py" c tmo []).1 ++
           (run_script env "analysis/entity_resolution.py" c tmo []).1,
         Except.ok (scriptOk (run_script env "parsers/parse_irs_990xml.py" c tmo []).2 &&
           scriptOk (run_script env "analysis/entity_resolution.py" c tmo []).2))) ∧
    stage_3_parse_and_structure_data env c (some "irs_990s") tmo =
      ((run_script env "parsers/parse_irs_990xml.py" c tmo []).1,
       Except.ok (scriptOk (run_script env "parsers/parse_irs_990xml.py" c tmo []).2)) := by
  constructor
  · intro dt hdt
    rcases hdt with hdt | hdt <;> subst hdt <;>
      simp [stage_3_parse_and_structure_data, h, execInvocations_singleton]
  · simp [stage_3_parse_and_structure_data, h, execInvocations_singleton]

/-- Witness for C5: in an environment where the parse script exits with
code 1 and the entity-resolution script succeeds, the parse stage with the
unset selector still launches both scripts in order and reports failure,
while the IRS-specific selector launches only the parse script. -/
theorem C5_parse_entity_resolution_witness :
    stage_3_parse_and_structure_data
        { isdir := fun _ => true, isfile := fun _ => true,
          proc := fun p =>
            if p = "scripts/parsers/parse_irs_990xml.py" then ProcOutcome.exits 1
            else ProcOutcome.exits 0,
          mkdirOk := true } "case1" none 60 =
      ([Event.launch "scripts/parsers/parse_irs_990xml.py",
        Event.launch "scripts/analysis/entity_resolution.py"], Except.ok false) ∧
    stage_3_parse_and_structure_data envAllOk "case1" (some "irs_990s") 60 =
      ([Event.launch "scripts/parsers/parse_irs_990xml.py"], Except.ok true) := by
  constructor
  · have h := (C5_parse_entity_resolution
      { isdir := fun _ => true, isfile := fun _ => true,
        proc := fun p =>
          if p = "scripts/parsers/parse_irs_990xml.py" then ProcOutcome.exits 1
          else ProcOutcome.exits 0,
        mkdirOk := true } "case1" 60 (by decide)).1 none (Or.inr rfl)
    exact h.trans rfl
  · have h := (C5_parse_entity_resolution envAllOk "case1" 60 (by decide)).2
    exact h.trans rfl

/-- C6: the per-stage execution loop attempts every resolved invocation in
order, its event trace being the concatenation of the individual runs
independent of failures among them; its overall flag is true exactly when
every invocation succeeded; and the empty invocation list yields success
with no events. -/
theorem C6_stage_executor (env : Env) (c : String) (tmo : Nat) (invs : List Invocation) :
    (execInvocations env c tmo invs).1 =
      invs.flatMap (fun i => (run_script env i.script c tmo i.args).1) ∧
    (execInvocations env c tmo invs).2 =
      invs.all (fun i => scriptOk (run_script env i.script c tmo i.args).2) ∧
    execInvocations env c tmo ([] : List Invocation) = ([], true) := by
  refine ⟨?_, ?_, rfl⟩ <;>
    induction invs with
    | nil => rfl
    | cons inv rest ih => simp [execInvocations, ih]

lemma validate_investigation_exists_eq_false (env : Env) (c : String)
    (h : env.isdir (joinPath INVESTIGATIONS_DIR c) = false) :
    validate_investigation_exists env c = false := by
  unfold validate_investigation_exists
  cases hv : validate_case_name c with
  | error m => rfl
  | ok u => exact h

/-- C7: when the investigation directory of the case does not exist,
every non-setup stage fails immediately with its structured stage-level
error and produces no events, so no child process is launched. -/
theorem C7_missing_directory_fails (env : Env) (c : String) (tmo : Nat)
    (acq ds pt rt : Option String)
    (h : env.isdir (joinPath INVESTIGATIONS_DIR c) = false) :
    stage_1_acquire_source_documents env c acq tmo =
      ([], Except.error (OrchError.stageError
        ("Cannot run acquire stage: Investigation directory for " ++ c ++ " not found or invalid."))) ∧
    stage_2_datashare_processing env c ds tmo =
      ([], Except.error (OrchError.stageError
        ("Cannot run datashare stage: Investigation directory for " ++ c ++ " not found or invalid."))) ∧
    stage_3_parse_and_structure_data env c pt tmo =
      ([], Except.error (OrchError.stageError
        ("Cannot run parse stage: Investigation directory for " ++ c ++ " not found or invalid."))) ∧
    stage_4_analysis_and_reporting env c rt tmo =
      ([], Except.error (OrchError.stageError
        ("Cannot run analyze stage: Investigation directory for " ++ c ++ " not found or invalid."))) ∧
    stage_5_package_for_review env c tmo =
      ([], Except.error (OrchError.stageError
        ("Cannot run package stage: Investigation directory for " ++ c ++ " not found or invalid."))) := by
  have hv := validate_investigation_exists_eq_false env c h
  refine ⟨?_, ?_, ?_, ?_, ?_⟩ <;>
    simp [stage_1_acquire_source_documents, stage_2_datashare_processing,
      stage_3_parse_and_structure_data, stage_4_analysis_and_reporting,
      stage_5_package_for_review, hv]

/-- Witness for C7: the acquire and parse stages against the environment
with no investigation directory. -/
theorem C7_missing_directory_fails_witness :
    stage_1_acquire_source_documents envNoInvestigationDir "case1" none 60 =
      ([], Except.error (OrchError.stageError
        "Cannot run acquire stage: Investigation directory for case1 not found or invalid.")) ∧
    stage_3_parse_and_structure_data envNoInvestigationDir "case1" none 60 =
      ([], Except.error (OrchError.stageError
        "Cannot run parse stage: Investigation directory for case1 not found or invalid.")) := by
  have h := C7_missing_directory_fails envNoInvestigationDir "case1" 60 none none none none rfl
  exact ⟨h.1.trans rfl, h.2.2.1.trans rfl⟩

/-- C8: when the target script file does not exist, the process runner
raises the not-found script-execution error without launching anything:
its event trace is empty. -/
theorem C8_runner_not_found (env : Env) (rel c : String) (tmo : Nat) (extra : List String)
    (h : env.isfile (joinPath SCRIPTS_DIR rel) = false) :
    run_script env rel c tmo extra =
      ([], Except.error (ScriptError.notFound (joinPath SCRIPTS_DIR rel))) := by
  unfold run_script
  rw [if_pos h]

/-- Witness for C8: the runner pointed at a missing fetch script. -/
theorem C8_runner_not_found_witness :
    run_script envNoScriptFiles "scraping/fetch_irs_990_forms.py" "case1" 60 [] =
      ([], Except.error (ScriptError.notFound "scripts/scraping/fetch_irs_990_forms.py")) := by
  have h := C8_runner_not_found envNoScriptFiles "scraping/fetch_irs_990_forms.py" "case1" 60 [] rfl
  exact h.trans rfl
